import Mathlib

/-!
Shallow embedding of `src/components/map/index.tsx` from zigbee2mqtt-frontend:
the force-directed network-map component.  Numbers are modelled by `ℚ`
(JavaScript numbers; all claims are structural, none exercises float rounding).
The shapes `NodeI`/`LinkI`/`GraphI` come from the component's `./types` module
(not part of the provided sources); their fields are reconstructed from the
uses in this file.  The d3 `ZoomTransform` is an external collaborator and is
modelled by its documented affine action `p ↦ k * p + t`.
-/

namespace ZigbeeMap

/-- A device node (`NodeI`): its IEEE address and current simulation
coordinates, the only fields this component's pure functions read. -/
structure NodeI where
  ieeeAddr : String
  x : ℚ
  y : ℚ
deriving DecidableEq, Repr

/-- A link (`LinkI`) between two devices.  After d3's link initialisation,
`source`/`target` hold the endpoint node records; `sourceIeeeAddr` /
`targetIeeeAddr` are the raw addresses, `linkType` the relationship label used
as key into `distancesMap`, `depth` the network depth, `repeated` marks
duplicate edges and `relationship` is the numeric `ZigbeeRelationship`. -/
structure LinkI where
  source : NodeI
  target : NodeI
  sourceIeeeAddr : String
  targetIeeeAddr : String
  linkType : String
  depth : ℚ
  repeated : Bool
  relationship : ℤ
deriving DecidableEq, Repr

/-- The network graph (`GraphI`): node list and link list. -/
structure GraphI where
  nodes : List NodeI
  links : List LinkI
deriving DecidableEq, Repr

/-- d3 zoom transform: scale `k` and translation `(x, y)`. -/
structure ZoomTransform where
  k : ℚ
  x : ℚ
  y : ℚ
deriving DecidableEq, Repr

/-- `transform.applyX(px) = px * k + x` (d3-zoom). -/
def ZoomTransform.applyX (t : ZoomTransform) (px : ℚ) : ℚ := px * t.k + t.x

/-- `transform.applyY(py) = py * k + y` (d3-zoom). -/
def ZoomTransform.applyY (t : ZoomTransform) (py : ℚ) : ℚ := py * t.k + t.y

/-- JavaScript's `~~v` (double bitwise not): truncation of `v` toward zero.
(`~~` is ToInt32; on `|v| < 2^31` — every network depth — it is exact
truncation, which is how we embed it.) -/
def jsTrunc (q : ℚ) : ℤ := if 0 ≤ q then ⌊q⌋ else -⌊-q⌋

/-- The `distancesMap` object literal: base edge length per link type. -/
def distancesMap (k : String) : Option ℚ :=
  if k = "BrokenLink" then some 450
  else if k = "Router2Router" then some 300
  else if k = "Coordinator2Router" then some 400
  else if k = "Coordinator2EndDevice" then some 100
  else if k = "EndDevice2Router" then some 100
  else none

/-- `getDistance(d)`: `distancesMap[d.linkType] ?? 200` plus `50 * ~~min(4, d.depth)`. -/
def getDistance (d : LinkI) : ℚ :=
  let distance := (distancesMap d.linkType).getD 200
  let depth := jsTrunc (min 4 d.depth)
  50 * (depth : ℚ) + distance

/-- Spec-side restatement of C1's base-distance table, written from the
claim's words ("BrokenLink 450, Router2Router 300, Coordinator2Router 400,
Coordinator2EndDevice 100, EndDevice2Router 100; 200 for any other linkType"). -/
def baseDistanceSpec (linkType : String) : ℚ :=
  if linkType = "BrokenLink" then 450
  else if linkType = "Router2Router" then 300
  else if linkType = "Coordinator2Router" then 400
  else if linkType = "Coordinator2EndDevice" then 100
  else if linkType = "EndDevice2Router" then 100
  else 200

/-- C1: for every link `d`, `getDistance d` is the base distance of its
`linkType` from the fixed table plus `50 *` the integer truncation of
`min 4 d.depth`; in particular it is a function of exactly the link's
relationship type and depth. -/
theorem c1_getDistance_table (d : LinkI) :
    getDistance d = baseDistanceSpec d.linkType + 50 * (jsTrunc (min 4 d.depth) : ℚ) := by
  unfold getDistance baseDistanceSpec distancesMap
  repeat' split
  all_goals simp [add_comm]

lemma jsTrunc_natCast (n : ℕ) : jsTrunc (n : ℚ) = n := by
  simp [jsTrunc]

lemma min_four_natCast (n : ℕ) : min (4 : ℚ) (n : ℚ) = ((min 4 n : ℕ) : ℚ) := by
  rw [Nat.cast_min]; norm_num

lemma getDistance_depth_natCast (l : LinkI) (n : ℕ) :
    getDistance { l with depth := (n : ℚ) } =
      50 * ((min 4 n : ℕ) : ℚ) + (distancesMap l.linkType).getD 200 := by
  unfold getDistance
  simp only [min_four_natCast, jsTrunc_natCast]
  norm_cast

/-- C10: for a fixed link (in particular a fixed `linkType`), `getDistance` is
monotone non-decreasing in the depth over natural depths, is constant from
depth `4` on, and the depth contribution on top of the depth-`0` distance
never exceeds `200`. -/
theorem c10_getDistance_depth_mono_saturating :
    (∀ (l : LinkI) (n₁ n₂ : ℕ), n₁ ≤ n₂ →
      getDistance { l with depth := (n₁ : ℚ) } ≤ getDistance { l with depth := (n₂ : ℚ) }) ∧
    (∀ (l : LinkI) (n : ℕ), 4 ≤ n →
      getDistance { l with depth := (n : ℚ) } = getDistance { l with depth := ((4 : ℕ) : ℚ) }) ∧
    (∀ (l : LinkI) (n : ℕ),
      getDistance { l with depth := (n : ℚ) } - getDistance { l with depth := ((0 : ℕ) : ℚ) } ≤ 200) := by
  refine ⟨fun l n₁ n₂ h => ?_, fun l n h => ?_, fun l n => ?_⟩
  · rw [getDistance_depth_natCast, getDistance_depth_natCast]
    have hmin : min 4 n₁ ≤ min 4 n₂ := min_le_min (le_refl 4) h
    have : ((min 4 n₁ : ℕ) : ℚ) ≤ ((min 4 n₂ : ℕ) : ℚ) := Nat.cast_le.mpr hmin
    linarith
  · rw [getDistance_depth_natCast, getDistance_depth_natCast]
    rw [min_eq_left h, min_self]
  · rw [getDistance_depth_natCast, getDistance_depth_natCast]
    have hmin : min 4 n ≤ 4 := min_le_left 4 n
    have : ((min 4 n : ℕ) : ℚ) ≤ 4 := by exact_mod_cast hmin
    simp only [Nat.min_zero, Nat.cast_zero]
    linarith

/-- Witness for C10 at concrete depths. -/
theorem c10_witness :
    (3 : ℕ) ≤ 5 ∧
      getDistance { source := ⟨"a", 0, 0⟩, target := ⟨"b", 0, 0⟩, sourceIeeeAddr := "a",
                    targetIeeeAddr := "b", linkType := "Router2Router", depth := ((3 : ℕ) : ℚ),
                    repeated := false, relationship := 1 } ≤
        getDistance { source := ⟨"a", 0, 0⟩, target := ⟨"b", 0, 0⟩, sourceIeeeAddr := "a",
                      targetIeeeAddr := "b", linkType := "Router2Router", depth := ((5 : ℕ) : ℚ),
                      repeated := false, relationship := 1 } :=
  ⟨by norm_num,
    c10_getDistance_depth_mono_saturating.1
      { source := ⟨"a", 0, 0⟩, target := ⟨"b", 0, 0⟩, sourceIeeeAddr := "a",
        targetIeeeAddr := "b", linkType := "Router2Router", depth := ((3 : ℕ) : ℚ),
        repeated := false, relationship := 1 } 3 5 (by norm_num)⟩

/-! ## Geometry: `computeLink` and the tick handler -/

/-- The JavaScript `Math` trigonometry the component calls.  These are
external library functions; the embedding is parametric in them, since every
claim about the geometry is independent of their actual values. -/
structure JsMath where
  cos : ℚ → ℚ
  sin : ℚ → ℚ
  atan2 : ℚ → ℚ → ℚ
  sqrt : ℚ → ℚ

/-- `angle(s, t) = Math.atan2(t.y - s.y, t.x - s.x)`. -/
def angle (m : JsMath) (s t : NodeI) : ℚ := m.atan2 (t.y - s.y) (t.x - s.x)

/-- `xpos(offset, s, t) = offset * Math.cos(angle(s, t)) + s.x`. -/
def xpos (m : JsMath) (offset : ℚ) (s t : NodeI) : ℚ := offset * m.cos (angle m s t) + s.x

/-- `ypos(offset, s, t) = offset * Math.sin(angle(s, t)) + s.y`. -/
def ypos (m : JsMath) (offset : ℚ) (s t : NodeI) : ℚ := offset * m.sin (angle m s t) + s.y

/-- The numeric content of the SVG path string `computeLink` builds: the two
transformed endpoints, the arc radius `dr`, and whether the path is an arc
(`repeated` links) or a straight line. -/
structure LinkPath where
  x1 : ℚ
  y1 : ℚ
  x2 : ℚ
  y2 : ℚ
  dr : ℚ
  arc : Bool
deriving DecidableEq, Repr

/-- `computeLink(d, transform, radius, width, height)`: clamps each endpoint
coordinate into `[radius, width - radius] × [radius, height - radius]`, then
applies the zoom transform, and renders an arc for repeated links. -/
def computeLink (m : JsMath) (d : LinkI) (transform : ZoomTransform)
    (radius width height : ℚ) : LinkPath :=
  let src := d.source
  let dst := d.target
  let x1 := transform.applyX (max radius (min (width - radius) src.x))
  let y1 := transform.applyY (max radius (min (height - radius) src.y))
  let x2 := transform.applyX (max radius (min (width - radius) dst.x))
  let y2 := transform.applyY (max radius (min (height - radius) dst.y))
  let dx := x2 - x1
  let dy := y2 - y1
  let dr := m.sqrt (dx * dx + dy * dy)
  { x1 := x1, y1 := y1, x2 := x2, y2 := y2, dr := dr, arc := d.repeated }

/-- The closure `computeTransform` inside `ticked` (with `radius = 40` and
`imgXShift = imgYShift = 32 / 2` from the enclosing scope): the node's
translation, i.e. the zoom transform of its coordinate, clamped into
`[40, width - 40] × [40, height - 40]`, shifted by half the icon size. -/
def computeTransform (transform : ZoomTransform) (width height : ℚ) (d : NodeI) : ℚ × ℚ :=
  let radius : ℚ := 40
  let imgXShift : ℚ := 32 / 2
  let imgYShift : ℚ := 32 / 2
  (max radius (min (width - radius) (transform.applyX d.x)) - imgXShift,
    max radius (min (height - radius) (transform.applyY d.y)) - imgYShift)

/-- The attributes one run of `ticked` writes: link path data, link-label
anchors and positions, and node translations. -/
structure TickedOutput where
  linkPaths : List LinkPath
  labelAnchors : List String
  labelXs : List ℚ
  labelYs : List ℚ
  nodePositions : List (ℚ × ℚ)
deriving DecidableEq, Repr

/-- `ticked({transform, node, link, linkLabel, width, height})`: recomputes
every rendered attribute from the current simulation coordinates and the
current zoom transform.  The `node`, `link` and `linkLabel` arguments are the
data bound to the three d3 selections; the attribute writes are modelled as
the returned lists (one entry per element, in selection order). -/
def ticked (m : JsMath) (transform : ZoomTransform) (node : List NodeI)
    (link linkLabel : List LinkI) (width height : ℚ) : TickedOutput :=
  let radius : ℚ := 40
  { linkPaths := link.map fun d => computeLink m d transform radius width height
    labelAnchors := linkLabel.map fun d => if d.repeated then "start" else "end"
    labelXs := linkLabel.map fun d =>
      transform.applyX (xpos m (if d.repeated then 30 else 60) d.source d.target)
    labelYs := linkLabel.map fun d =>
      transform.applyY (ypos m (if d.repeated then 30 else 60) d.source d.target)
    nodePositions := node.map fun d => computeTransform transform width height d }

/-- Spec-side clamp of `v` into the interval `[lo, hi]` (for `lo ≤ hi`). -/
def clampSpec (lo hi v : ℚ) : ℚ := max lo (min hi v)

/-- Spec-side formula for a link endpoint, from C3's words: "the transform
applied to the source/target coordinate clamped into
`[40, width-40] × [40, height-40]`". -/
def specLinkEndpoint (t : ZoomTransform) (width height : ℚ) (p : ℚ × ℚ) : ℚ × ℚ :=
  (t.applyX (clampSpec 40 (width - 40) p.1), t.applyY (clampSpec 40 (height - 40) p.2))

/-- Spec-side formula for a link label, from C3's words: "the transform of the
point offset 30 (for repeated links) or 60 (otherwise) from the source along
the link direction". -/
def specLabelPoint (m : JsMath) (t : ZoomTransform) (d : LinkI) : ℚ × ℚ :=
  let offset : ℚ := if d.repeated then 30 else 60
  let θ := m.atan2 (d.target.y - d.source.y) (d.target.x - d.source.x)
  (t.applyX (d.source.x + offset * m.cos θ), t.applyY (d.source.y + offset * m.sin θ))

/-- Spec-side formula for a node translation, from C3's words: "the clamped
transform of its coordinate shifted by 16 pixels in x and y". -/
def specNodePosition (t : ZoomTransform) (width height : ℚ) (d : NodeI) : ℚ × ℚ :=
  (clampSpec 40 (width - 40) (t.applyX d.x) - 16,
    clampSpec 40 (height - 40) (t.applyY d.y) - 16)

/-- C3: one run of `ticked` recomputes all screen-space positions as the spec
describes: every link endpoint is the transform of the coordinate clamped
into `[40, width-40] × [40, height-40]`; every label sits at the transform of
the point offset 30 (repeated) or 60 (otherwise) from the source along the
link direction; every node is translated to the clamped transform of its
coordinate shifted by 16 pixels. -/
theorem c3_ticked_recomputes_positions (m : JsMath) (transform : ZoomTransform)
    (node : List NodeI) (link linkLabel : List LinkI) (width height : ℚ) :
    ((ticked m transform node link linkLabel width height).linkPaths.map
        fun p => ((p.x1, p.y1), (p.x2, p.y2))) =
      (link.map fun d =>
        (specLinkEndpoint transform width height (d.source.x, d.source.y),
          specLinkEndpoint transform width height (d.target.x, d.target.y))) ∧
    ((ticked m transform node link linkLabel width height).labelXs =
      linkLabel.map fun d => (specLabelPoint m transform d).1) ∧
    ((ticked m transform node link linkLabel width height).labelYs =
      linkLabel.map fun d => (specLabelPoint m transform d).2) ∧
    ((ticked m transform node link linkLabel width height).nodePositions =
      node.map fun d => specNodePosition transform width height d) := by
  refine ⟨?_, ?_, ?_, ?_⟩
  · simp only [ticked, List.map_map]
    refine List.map_congr_left fun d _ => ?_
    simp [computeLink, specLinkEndpoint, clampSpec]
  · simp only [ticked]
    refine List.map_congr_left fun d _ => ?_
    simp only [specLabelPoint, xpos, angle]
    ring_nf
  · simp only [ticked]
    refine List.map_congr_left fun d _ => ?_
    simp only [specLabelPoint, ypos, angle]
    ring_nf
  · simp only [ticked]
    refine List.map_congr_left fun d _ => ?_
    simp only [computeTransform, specNodePosition, clampSpec]
    norm_num

/-- C8: the node translation computed by the tick handler stays inside the
viewport: with `width, height ≥ 80`, its x-component lies in
`[24, width - 56]` and its y-component in `[24, height - 56]`, for every zoom
transform and every node coordinate. -/
theorem c8_node_position_bounded (t : ZoomTransform) (width height : ℚ) (d : NodeI)
    (hw : 80 ≤ width) (hh : 80 ≤ height) :
    24 ≤ (computeTransform t width height d).1 ∧
      (computeTransform t width height d).1 ≤ width - 56 ∧
      24 ≤ (computeTransform t width height d).2 ∧
      (computeTransform t width height d).2 ≤ height - 56 := by
  unfold computeTransform
  have hx1 : (40 : ℚ) ≤ max 40 (min (width - 40) (t.applyX d.x)) := le_max_left _ _
  have hx2 : max (40 : ℚ) (min (width - 40) (t.applyX d.x)) ≤ width - 40 :=
    max_le (by linarith) (min_le_left _ _)
  have hy1 : (40 : ℚ) ≤ max 40 (min (height - 40) (t.applyY d.y)) := le_max_left _ _
  have hy2 : max (40 : ℚ) (min (height - 40) (t.applyY d.y)) ≤ height - 40 :=
    max_le (by linarith) (min_le_left _ _)
  refine ⟨by simp only []; linarith, by simp only []; linarith,
    by simp only []; linarith, by simp only []; linarith⟩

/-- Witness for C8 at a concrete transform, node and viewport. -/
theorem c8_witness :
    24 ≤ (computeTransform ⟨2, 5, 7⟩ 100 90 ⟨"0x1", 3, 200⟩).1 ∧
      (computeTransform ⟨2, 5, 7⟩ 100 90 ⟨"0x1", 3, 200⟩).1 ≤ 100 - 56 ∧
      24 ≤ (computeTransform ⟨2, 5, 7⟩ 100 90 ⟨"0x1", 3, 200⟩).2 ∧
      (computeTransform ⟨2, 5, 7⟩ 100 90 ⟨"0x1", 3, 200⟩).2 ≤ 90 - 56 :=
  c8_node_position_bounded ⟨2, 5, 7⟩ 100 90 ⟨"0x1", 3, 200⟩ (by norm_num) (by norm_num)

/-! ## Highlighting: `processHighlights` -/

/-- The `linkedByIndex` set: for every node the key `addr + "," + addr`, and
for every visible link the key `sourceIeeeAddr + "," + targetIeeeAddr`.  A JS
`Set<string>` is modelled as a list of the inserted keys; only membership is
ever consulted. -/
def linkedByIndex (nodes : List NodeI) (links : List LinkI) : List String :=
  (nodes.map fun n => n.ieeeAddr ++ "," ++ n.ieeeAddr) ++
    (links.map fun l => l.sourceIeeeAddr ++ "," ++ l.targetIeeeAddr)

/-- `neighboring(a, b) = linkedByIndex.has(a.ieeeAddr + "," + b.ieeeAddr)`. -/
def neighboring (idx : List String) (a b : NodeI) : Bool :=
  idx.contains (a.ieeeAddr ++ "," ++ b.ieeeAddr)

/-- The styles one run of `processHighlights` writes: node opacities, link
stroke opacities and link-label opacities, one entry per element of the
corresponding selection. -/
structure HighlightResult where
  nodeOpacities : List ℚ
  linkStrokeOpacities : List ℚ
  linkLabelOpacities : List ℚ
deriving DecidableEq, Repr

/-- `processHighlights({networkGraph, links, selectedNode, node, link,
linkLabel})`: builds `linkedByIndex` from the graph's nodes and the visible
links; when a node is selected, dims (opacity `0.15`) every node not
neighboring it in either direction and every link/label whose endpoints do
not include it; otherwise sets every opacity to `1`. -/
def processHighlights (networkGraph : GraphI) (links : List LinkI)
    (selectedNode : Option NodeI) (node : List NodeI)
    (link linkLabel : List LinkI) : HighlightResult :=
  let idx := linkedByIndex networkGraph.nodes links
  match selectedNode with
  | some s =>
      { nodeOpacities :=
          node.map fun o => if neighboring idx s o || neighboring idx o s then 1 else 0.15
        linkStrokeOpacities :=
          link.map fun l => if l.source = s ∨ l.target = s then 1 else 0.15
        linkLabelOpacities :=
          linkLabel.map fun l => if l.source = s ∨ l.target = s then 1 else 0.15 }
  | none =>
      { nodeOpacities := node.map fun _ => 1
        linkStrokeOpacities := link.map fun _ => 1
        linkLabelOpacities := linkLabel.map fun _ => 1 }

/-- The opacity `processHighlights` assigns to one node of the node
selection. -/
def nodeOpacity (networkGraph : GraphI) (links : List LinkI)
    (selectedNode : Option NodeI) (o : NodeI) : ℚ :=
  let idx := linkedByIndex networkGraph.nodes links
  match selectedNode with
  | some s => if neighboring idx s o || neighboring idx o s then 1 else 0.15
  | none => 1

/-- The opacity `processHighlights`'s `computeOpacity` assigns to one link of
the link (or link-label) selection. -/
def linkOpacity (selectedNode : Option NodeI) (l : LinkI) : ℚ :=
  match selectedNode with
  | some s => if l.source = s ∨ l.target = s then 1 else 0.15
  | none => 1

/-- Spec-side notion for C2: `o` is a neighbor of the selected node `s` in
either direction according to the link index built from the graph's nodes and
the currently visible links. -/
def relatedSpec (nodes : List NodeI) (links : List LinkI) (s o : NodeI) : Prop :=
  (s.ieeeAddr ++ "," ++ o.ieeeAddr) ∈ linkedByIndex nodes links ∨
    (o.ieeeAddr ++ "," ++ s.ieeeAddr) ∈ linkedByIndex nodes links

lemma neighboring_iff_mem (idx : List String) (a b : NodeI) :
    neighboring idx a b = true ↔ (a.ieeeAddr ++ "," ++ b.ieeeAddr) ∈ idx := by
  simp [neighboring]

/-- C2: with a node selected, `processHighlights` keeps exactly the related
elements fully visible: a node gets opacity `1` iff it neighbors the selected
node in either direction according to the link index, else `0.15`; a link or
link label gets opacity `1` iff its source or target is the selected node,
else `0.15`; and the written style lists are exactly these per-element
opacities. -/
theorem c2_highlight_dims_unrelated (g : GraphI) (ls : List LinkI) (s o : NodeI)
    (l : LinkI) (node : List NodeI) (link linkLabel : List LinkI) :
    (nodeOpacity g ls (some s) o = 1 ↔ relatedSpec g.nodes ls s o) ∧
    (nodeOpacity g ls (some s) o = 0.15 ↔ ¬ relatedSpec g.nodes ls s o) ∧
    (linkOpacity (some s) l = 1 ↔ (l.source = s ∨ l.target = s)) ∧
    (linkOpacity (some s) l = 0.15 ↔ ¬ (l.source = s ∨ l.target = s)) ∧
    processHighlights g ls (some s) node link linkLabel =
      { nodeOpacities := node.map (nodeOpacity g ls (some s))
        linkStrokeOpacities := link.map (linkOpacity (some s))
        linkLabelOpacities := linkLabel.map (linkOpacity (some s)) } := by
  refine ⟨?_, ?_, ?_, ?_, rfl⟩
  · by_cases h : relatedSpec g.nodes ls s o <;>
      · have h' := h
        unfold relatedSpec at h'
        simp [nodeOpacity, neighboring_iff_mem, neighboring, h', h]
        try norm_num
  · by_cases h : relatedSpec g.nodes ls s o <;>
      · have h' := h
        unfold relatedSpec at h'
        simp [nodeOpacity, neighboring_iff_mem, neighboring, h', h]
        try norm_num
  · by_cases h : l.source = s ∨ l.target = s <;>
      · simp [linkOpacity, h]
        try norm_num
  · by_cases h : l.source = s ∨ l.target = s <;>
      · simp [linkOpacity, h]
        try norm_num

/-- Witness for C2 on a concrete two-node graph with one link. -/
theorem c2_witness :
    (nodeOpacity ⟨[⟨"a", 0, 0⟩, ⟨"b", 1, 1⟩], []⟩
        [{ source := ⟨"a", 0, 0⟩, target := ⟨"b", 1, 1⟩, sourceIeeeAddr := "a",
           targetIeeeAddr := "b", linkType := "Router2Router", depth := 1,
           repeated := false, relationship := 1 }]
        (some ⟨"a", 0, 0⟩) ⟨"b", 1, 1⟩ = 1 ↔
      relatedSpec [⟨"a", 0, 0⟩, ⟨"b", 1, 1⟩]
        [{ source := ⟨"a", 0, 0⟩, target := ⟨"b", 1, 1⟩, sourceIeeeAddr := "a",
           targetIeeeAddr := "b", linkType := "Router2Router", depth := 1,
           repeated := false, relationship := 1 }]
        ⟨"a", 0, 0⟩ ⟨"b", 1, 1⟩) :=
  (c2_highlight_dims_unrelated ⟨[⟨"a", 0, 0⟩, ⟨"b", 1, 1⟩], []⟩
    [{ source := ⟨"a", 0, 0⟩, target := ⟨"b", 1, 1⟩, sourceIeeeAddr := "a",
       targetIeeeAddr := "b", linkType := "Router2Router", depth := 1,
       repeated := false, relationship := 1 }]
    ⟨"a", 0, 0⟩ ⟨"b", 1, 1⟩
    { source := ⟨"a", 0, 0⟩, target := ⟨"b", 1, 1⟩, sourceIeeeAddr := "a",
      targetIeeeAddr := "b", linkType := "Router2Router", depth := 1,
      repeated := false, relationship := 1 } [] [] []).1

/-- C5: with no node selected, `processHighlights` assigns opacity `1` to
every node, every link and every link label. -/
theorem c5_no_selection_nothing_dimmed (g : GraphI) (ls : List LinkI)
    (o : NodeI) (l : LinkI) (node : List NodeI) (link linkLabel : List LinkI) :
    nodeOpacity g ls none o = 1 ∧ linkOpacity none l = 1 ∧
      processHighlights g ls none node link linkLabel =
        { nodeOpacities := node.map fun _ => 1
          linkStrokeOpacities := link.map fun _ => 1
          linkLabelOpacities := linkLabel.map fun _ => 1 } :=
  ⟨rfl, rfl, rfl⟩

/-- C9: `processHighlights` records every graph node as its own neighbor, so
a selected node that is in the graph always receives opacity `1`. -/
theorem c9_selected_node_never_dimmed (g : GraphI) (ls : List LinkI) (n : NodeI)
    (h : n ∈ g.nodes) :
    (n.ieeeAddr ++ "," ++ n.ieeeAddr) ∈ linkedByIndex g.nodes ls ∧
      nodeOpacity g ls (some n) n = 1 := by
  have hmem : (n.ieeeAddr ++ "," ++ n.ieeeAddr) ∈ linkedByIndex g.nodes ls :=
    List.mem_append_left _ (List.mem_map_of_mem _ h)
  refine ⟨hmem, ?_⟩
  simp [nodeOpacity, neighboring, hmem]

/-- Witness for C9 on a concrete one-node graph. -/
theorem c9_witness :
    (⟨"0xabc", 2, 3⟩ : NodeI) ∈ ([⟨"0xabc", 2, 3⟩] : List NodeI) ∧
      (("0xabc" ++ "," ++ "0xabc") ∈ linkedByIndex [⟨"0xabc", 2, 3⟩] [] ∧
        nodeOpacity ⟨[⟨"0xabc", 2, 3⟩], []⟩ [] (some ⟨"0xabc", 2, 3⟩) ⟨"0xabc", 2, 3⟩ = 1) :=
  ⟨List.mem_singleton.mpr rfl,
    c9_selected_node_never_dimmed ⟨[⟨"0xabc", 2, 3⟩], []⟩ [] ⟨"0xabc", 2, 3⟩
      (List.mem_singleton.mpr rfl)⟩

/-! ## Force configuration: `updateForces` -/

/-- Configuration of the d3 `forceLink` as set by `updateForces`: the node id
accessor, the per-edge distance accessor and the strength. -/
structure LinkForceConfig where
  idKey : NodeI → String
  distance : LinkI → ℚ
  strength : ℚ

/-- Configuration of a d3 many-body force: strength and the distance range it
acts over. -/
structure ManyBodyForceConfig where
  strength : ℚ
  distanceMin : ℚ
  distanceMax : ℚ
deriving DecidableEq, Repr

/-- Configuration of the d3 `forceCollide`: radius and strength. -/
structure CollideForceConfig where
  radius : ℚ
  strength : ℚ
deriving DecidableEq, Repr

/-- Configuration of the d3 `forceCenter`: the centering point. -/
structure CenterForceConfig where
  x : ℚ
  y : ℚ
deriving DecidableEq, Repr

/-- Configuration of a d3 positioning force (`forceX` / `forceY`): target
coordinate and strength. -/
structure PositionForceConfig where
  target : ℚ
  strength : ℚ
deriving DecidableEq, Repr

/-- `forceX()` with no setters called: d3's documented defaults. -/
def forceXDefault : PositionForceConfig := { target := 0, strength := 0.1 }

/-- `forceY()` with no setters called: d3's documented defaults. -/
def forceYDefault : PositionForceConfig := { target := 0, strength := 0.1 }

/-- The full force configuration `updateForces` installs on the simulation,
one field per registered force name. -/
structure SimulationConfig where
  link : LinkForceConfig
  charge : ManyBodyForceConfig
  collisionForce : CollideForceConfig
  repelForce : ManyBodyForceConfig
  center : CenterForceConfig
  xForce : PositionForceConfig
  yForce : PositionForceConfig

/-- `updateForces(width, height)`: builds the link, charge, repel, collision
and center forces with the source's literal parameters and registers them
together with default `forceX()` and `forceY()`. -/
def updateForces (width height : ℚ) : SimulationConfig :=
  let linkForce : LinkForceConfig :=
    { idKey := fun d => d.ieeeAddr, distance := getDistance, strength := 0.2 }
  let chargeForce : ManyBodyForceConfig :=
    { strength := -200, distanceMin := 200, distanceMax := 1000 }
  let repelForce : ManyBodyForceConfig :=
    { strength := -140, distanceMin := 20, distanceMax := 50 }
  let collisionForce : CollideForceConfig := { radius := 40, strength := 1 }
  let centerForce : CenterForceConfig := { x := width / 2, y := height / 2 }
  { link := linkForce, charge := chargeForce, collisionForce := collisionForce,
    repelForce := repelForce, center := centerForce,
    xForce := forceXDefault, yForce := forceYDefault }

/-- C6: `updateForces(width, height)` configures exactly: a link force keyed
by `ieeeAddr` with per-edge distance `getDistance` and strength `0.2`; a
charge force of strength `-200` acting between distances `200` and `1000`; a
repel force of strength `-140` acting between distances `20` and `50`; a
collision force of radius `40` and strength `1`; a centering force at
`(width/2, height/2)`; and default `x`/`y` positioning forces. -/
theorem c6_updateForces_parameters (width height : ℚ) :
    (updateForces width height).link.idKey = (fun d => d.ieeeAddr) ∧
    (updateForces width height).link.distance = getDistance ∧
    (updateForces width height).link.strength = 0.2 ∧
    (updateForces width height).charge = ⟨-200, 200, 1000⟩ ∧
    (updateForces width height).repelForce = ⟨-140, 20, 50⟩ ∧
    (updateForces width height).collisionForce = ⟨40, 1⟩ ∧
    (updateForces width height).center = ⟨width / 2, height / 2⟩ ∧
    (updateForces width height).xForce = forceXDefault ∧
    (updateForces width height).yForce = forceYDefault :=
  ⟨rfl, rfl, rfl, rfl, rfl, rfl, rfl, rfl, rfl⟩

/-! ## The zoom handler -/

/-- The view state the zoom handler touches: the `transform` attribute of the
`.everything` SVG group, the component's stored current transform
(`this.transform`), and the attributes most recently written by `ticked`. -/
structure MapViewState where
  transform : ZoomTransform
  everythingTransform : ZoomTransform
  rendered : TickedOutput

/-- The `zoom` event handler installed by `updateNodes`: on a zoom/pan event
with transform `t` it sets the `.everything` group's transform attribute to
`t`, stores `t` as the component's current transform, and immediately reruns
`ticked` with `t` and the captured selections and dimensions. -/
def onZoom (m : JsMath) (node : List NodeI) (link linkLabel : List LinkI)
    (width height : ℚ) (transform : ZoomTransform) (_previous : MapViewState) : MapViewState :=
  { everythingTransform := transform
    transform := transform
    rendered := ticked m transform node link linkLabel width height }

/-- C7: on every zoom event the handler applies the new transform to the
`.everything` group, stores it as the component's current transform, and
recomputes all positions by running the tick handler under that new
transform — independently of the previous view state. -/
theorem c7_zoom_applies_stores_reticks (m : JsMath) (node : List NodeI)
    (link linkLabel : List LinkI) (width height : ℚ) (t : ZoomTransform)
    (s : MapViewState) :
    (onZoom m node link linkLabel width height t s).everythingTransform = t ∧
    (onZoom m node link linkLabel width height t s).transform = t ∧
    (onZoom m node link linkLabel width height t s).rendered =
      ticked m t node link linkLabel width height ∧
    (∀ s₁ s₂ : MapViewState, onZoom m node link linkLabel width height t s₁ =
      onZoom m node link linkLabel width height t s₂) :=
  ⟨rfl, rfl, rfl, fun _ _ => rfl⟩

/-! ## Purity (read footprints) -/

lemma linkedByIndex_eq_of_projections (ns₁ ns₂ : List NodeI) (ls₁ ls₂ : List LinkI)
    (hn : ns₁.map NodeI.ieeeAddr = ns₂.map NodeI.ieeeAddr)
    (hl : (ls₁.map fun l => (l.sourceIeeeAddr, l.targetIeeeAddr)) =
      (ls₂.map fun l => (l.sourceIeeeAddr, l.targetIeeeAddr))) :
    linkedByIndex ns₁ ls₁ = linkedByIndex ns₂ ls₂ := by
  have key : ∀ (ns : List NodeI) (ls : List LinkI),
      linkedByIndex ns ls =
        ((ns.map NodeI.ieeeAddr).map fun a => a ++ "," ++ a) ++
          ((ls.map fun l => (l.sourceIeeeAddr, l.targetIeeeAddr)).map
            fun p => p.1 ++ "," ++ p.2) := by
    intro ns ls
    simp only [linkedByIndex, List.map_map]
    rfl
  rw [key, key, hn, hl]

/-- C4: the distance function, the tick-handler geometry and the highlight
opacities are pure functions of their arguments (the attribute/style writes
being modelled as their results): `getDistance` reads only the link's
`linkType` and `depth`; `computeLink` reads only the link's endpoints and
`repeated` flag; the node translation reads only the node's coordinates; the
link index reads only the node addresses and link address pairs; and the node
opacity reads only the addresses of the selected and inspected nodes. -/
theorem c4_stateless_pure_functions :
    (∀ d₁ d₂ : LinkI, d₁.linkType = d₂.linkType → d₁.depth = d₂.depth →
      getDistance d₁ = getDistance d₂) ∧
    (∀ (m : JsMath) (t : ZoomTransform) (radius width height : ℚ) (d₁ d₂ : LinkI),
      d₁.source = d₂.source → d₁.target = d₂.target → d₁.repeated = d₂.repeated →
      computeLink m d₁ t radius width height = computeLink m d₂ t radius width height) ∧
    (∀ (t : ZoomTransform) (width height : ℚ) (d₁ d₂ : NodeI),
      d₁.x = d₂.x → d₁.y = d₂.y →
      computeTransform t width height d₁ = computeTransform t width height d₂) ∧
    (∀ (ns₁ ns₂ : List NodeI) (ls₁ ls₂ : List LinkI),
      ns₁.map NodeI.ieeeAddr = ns₂.map NodeI.ieeeAddr →
      (ls₁.map fun l => (l.sourceIeeeAddr, l.targetIeeeAddr)) =
        (ls₂.map fun l => (l.sourceIeeeAddr, l.targetIeeeAddr)) →
      linkedByIndex ns₁ ls₁ = linkedByIndex ns₂ ls₂) ∧
    (∀ (g : GraphI) (ls : List LinkI) (s₁ s₂ o₁ o₂ : NodeI),
      s₁.ieeeAddr = s₂.ieeeAddr → o₁.ieeeAddr = o₂.ieeeAddr →
      nodeOpacity g ls (some s₁) o₁ = nodeOpacity g ls (some s₂) o₂) := by
  refine ⟨fun d₁ d₂ h₁ h₂ => ?_, fun m t radius w h d₁ d₂ h₁ h₂ h₃ => ?_,
    fun t w h d₁ d₂ h₁ h₂ => ?_, linkedByIndex_eq_of_projections,
    fun g ls s₁ s₂ o₁ o₂ h₁ h₂ => ?_⟩
  · unfold getDistance
    rw [h₁, h₂]
  · unfold computeLink
    rw [h₁, h₂, h₃]
  · unfold computeTransform
    rw [h₁, h₂]
  · simp only [nodeOpacity, neighboring, h₁, h₂]

/-- Witness for C4: two links equal in `linkType` and `depth` but different
everywhere else get the same distance. -/
theorem c4_witness :
    getDistance { source := ⟨"a", 0, 0⟩, target := ⟨"b", 1, 1⟩, sourceIeeeAddr := "a",
                  targetIeeeAddr := "b", linkType := "Coordinator2Router", depth := 2,
                  repeated := false, relationship := 1 } =
      getDistance { source := ⟨"c", 5, 5⟩, target := ⟨"d", 6, 6⟩, sourceIeeeAddr := "c",
                    targetIeeeAddr := "d", linkType := "Coordinator2Router", depth := 2,
                    repeated := true, relationship := 3 } :=
  c4_stateless_pure_functions.1
    { source := ⟨"a", 0, 0⟩, target := ⟨"b", 1, 1⟩, sourceIeeeAddr := "a",
      targetIeeeAddr := "b", linkType := "Coordinator2Router", depth := 2,
      repeated := false, relationship := 1 }
    { source := ⟨"c", 5, 5⟩, target := ⟨"d", 6, 6⟩, sourceIeeeAddr := "c",
      targetIeeeAddr := "d", linkType := "Coordinator2Router", depth := 2,
      repeated := true, relationship := 3 } rfl rfl

end ZigbeeMap
